import Mathlib

/-
Verification development for mineralink_fetch_and_tile.py
(MineraLink – Automated Well & Parcel Data Fetcher + Tile Builder).

Shallow embedding notes.
* Geometries are modelled as a tagged union over points, line strings and
  polygons with integer coordinate pairs (exact arithmetic stands in for the
  script's floats; the coordinate values themselves are never computed by the
  script — they come from the external pyproj transform, which is a parameter
  of the embedding).
* The pyproj/shapely step `shape` + `transform` + `mapping` inside the
  try/except of reproject_geojson is modelled by a parameter
  `tr : Geom → Option Geom`: `none` models the call raising an exception.
* Network responses are a parameter `env : Nat → PageResponse` mapping a
  resultOffset to what `requests.get` + `r.json()` produce at that offset:
  `err` models any exception (timeout, HTTP error status, non-JSON body),
  `noFeaturesKey` a JSON body without a "features" key, and `page fs` a JSON
  body whose "features" member is the list `fs`.
* The file write of fetch_features sits in a try/except (source lines
  109-114); a Bool parameter `wr` models whether out_file.write_text
  succeeds, a failed write persisting nothing and returning 0.
* The source's fetch loop is `while True`, leaving only `break` to end it;
  the embedding adds a fuel argument to bound the number of iterations, which
  is otherwise unobservable in the results proved here (all terminal
  behaviour is conditioned on the recorded stop reason).
-/

inductive Geom where
  | point (x y : Int)
  | line (pts : List (Int × Int))
  | poly (rings : List (List (Int × Int)))
deriving DecidableEq, Repr

/-- A GeoJSON feature as the script sees it: a dict whose "geometry" member is
mutated by reproject_geojson and whose remaining members (properties, id,
type, ...) are carried through untouched, modelled as an association list. -/
structure Feature where
  geom : Geom
  other : List (String × String)
deriving DecidableEq, Repr

/-- reproject_geojson (source lines 55-67): for each feature, try to rebuild
and transform its geometry; on success store the new geometry back into the
feature and keep it, on any exception skip the feature. -/
def reproject_geojson (tr : Geom → Option Geom) : List Feature → List Feature
  | [] => []
  | f :: fs =>
    match tr f.geom with
    | some g => { f with geom := g } :: reproject_geojson tr fs
    | none => reproject_geojson tr fs

/-- What one GET against the query endpoint yields at a given resultOffset. -/
inductive PageResponse where
  | err
  | noFeaturesKey
  | page (fs : List Feature)
deriving DecidableEq, Repr

inductive StopReason where
  | error
  | endOfData
  | outOfFuel
deriving DecidableEq, Repr

/-- Trace of one layer's pagination loop: the offsets actually requested, in
order, the accumulated raw features, and why the loop ended. -/
structure FetchTrace where
  requests : List Nat
  features : List Feature
  stop : StopReason
deriving DecidableEq, Repr

def page_size : Nat := 2000

/-- The pagination loop of fetch_features (source lines 79-98): request the
current offset; on an exception log and break; if "features" is absent or the
array is empty, break; otherwise extend the accumulator and advance the
offset by page_size. -/
def fetchPages (env : Nat → PageResponse) : Nat → Nat → List Feature → FetchTrace
  | 0, _, acc => ⟨[], acc, .outOfFuel⟩
  | fuel + 1, off, acc =>
    match env off with
    | .err => ⟨[off], acc, .error⟩
    | .noFeaturesKey => ⟨[off], acc, .endOfData⟩
    | .page [] => ⟨[off], acc, .endOfData⟩
    | .page (f :: fs) =>
      let t := fetchPages env fuel (off + page_size) (acc ++ (f :: fs))
      ⟨off :: t.requests, t.features, t.stop⟩

/-- A JSON value as it occurs in the persisted document. -/
inductive JVal where
  | str (s : String)
  | featArr (fs : List Feature)
deriving DecidableEq, Repr

/-- The document written at source line 107-110: exactly the two members
"type" and "features". -/
def geojsonDoc (fs : List Feature) : List (String × JVal) :=
  [("type", JVal.str "FeatureCollection"), ("features", JVal.featArr fs)]

/-- Result of fetch_features for one layer: the document written to
data/<state>.geojson (if any), the returned feature count, and the fetch
trace. -/
structure FetchOutcome where
  written : Option (List (String × JVal))
  count : Nat
  trace : FetchTrace
deriving DecidableEq, Repr

/-- fetch_features (source lines 72-115): paginate; if no raw features were
accumulated, return 0 without writing; otherwise reproject to WGS84, try to
write the FeatureCollection document and return the (post-reprojection)
count. The write itself sits in a try/except (source lines 109-114): `wr`
models whether out_file.write_text succeeds; on a write exception the source
logs and returns 0, persisting no document. -/
def fetch_features (env : Nat → PageResponse) (tr : Geom → Option Geom)
    (wr : Bool) (fuel : Nat) : FetchOutcome :=
  let t := fetchPages env fuel 0 []
  if t.features.isEmpty then
    ⟨none, 0, t⟩
  else
    let fs := reproject_geojson tr t.features
    if wr then
      ⟨some (geojsonDoc fs), fs.length, t⟩
    else
      ⟨none, 0, t⟩

/-- The STATES catalog (source lines 22-34). -/
def STATES : List (String × String) :=
  [("WV", "https://tagis.dep.wv.gov/arcgis/rest/services/WVDEP_enterprise/oil_gas/MapServer/0"),
   ("OH", "https://gis.ohiodnr.gov/arcgis/rest/services/DOG_Services/Oilgas_Wells_public/MapServer/0"),
   ("PA", "https://www.paoilandgasreporting.state.pa.us/arcgis/rest/services/Public/OG_Wells/MapServer/0"),
   ("TX", "https://gis.rrc.texas.gov/server/rest/services/Public/Wells/MapServer/0"),
   ("CO", "https://cogccmap.state.co.us/arcgis/rest/services/ogcc_wells/MapServer/0"),
   ("OK", "https://services.arcgis.com/ZOQj2K1Q2qRZmbVZ/arcgis/rest/services/OCC_Wells/MapServer/0"),
   ("LA", "https://gis.sonris.com/arcgis/rest/services/WellData/MapServer/0"),
   ("NM", "https://ocdimage.emnrd.state.nm.us/arcgis/rest/services/public/OCD_Wells/MapServer/0"),
   ("AR", "https://gis.arkansas.gov/arcgis/rest/services/OilGas/MapServer/0"),
   ("WY", "https://wsgs.maps.arcgis.com/arcgis/rest/services/Wyoming_OilGasWells/MapServer/0"),
   ("UT", "https://mapserv.utah.gov/arcgis/rest/services/OGM/Wells/MapServer/0")]

/-- Outcome of one run of main: the process exit status, whether the run
handed off to the tile build (build_tiles was invoked at all), and the
per-state fetch outcomes. -/
structure RunResult where
  exitCode : Nat
  buildAttempted : Bool
  outcomes : List (String × FetchOutcome)
deriving DecidableEq, Repr

def totalCount (env : String → Nat → PageResponse) (tr : Geom → Option Geom)
    (wr : String → Bool) (fuel : Nat) : Nat :=
  (STATES.map (fun st => (fetch_features (env st.1) tr (wr st.1) fuel).count)).sum

/-- main (source lines 168-195): fetch every state, sum the returned counts;
if the total is 0, log and return (the process still exits with status 0);
otherwise run the tile build and push. `wr` gives each state's write outcome.
The parameter `fb` models the static fallback-dataset store the
specification posits as an external collaborator (keyed by layer name); the
source never reads any fallback data, so `fb` is never consulted. -/
def mainRun (env : String → Nat → PageResponse) (tr : Geom → Option Geom)
    (fuel : Nat) (wr : String → Bool) (fb : String → Option (List Feature)) : RunResult :=
  let outs : List (String × FetchOutcome) :=
    STATES.map (fun st => (st.1, fetch_features (env st.1) tr (wr st.1) fuel))
  let total : Nat := (outs.map (fun o => o.2.count)).sum
  if total = 0 then ⟨0, false, outs⟩ else ⟨0, true, outs⟩

/-- The file filter of build_tiles (source line 122): the .geojson files in
the data directory, given as (name, byte size) pairs, whose size is strictly
greater than 500 bytes. -/
def tilingInputs (files : List (String × Nat)) : List (String × Nat) :=
  files.filter (fun f => 500 < f.2)

/-- build_tiles (source lines 120-149): if no file passes the size filter,
return False without running tippecanoe; otherwise the result is the
tippecanoe exit outcome `tcOk`. -/
def build_tiles (files : List (String × Nat)) (tcOk : Bool) : Bool :=
  if (tilingInputs files).isEmpty then false else tcOk

/-- Raw features contributed by the response at one offset (an errored or
featureless response contributes nothing). -/
def pageFeats (env : Nat → PageResponse) (off : Nat) : List Feature :=
  match env off with
  | .page fs => fs
  | _ => []

/-- Valid WGS84 ranges: longitude in [-180, 180], latitude in [-90, 90]. -/
def coordInRange (c : Int × Int) : Bool :=
  -180 ≤ c.1 && c.1 ≤ 180 && -90 ≤ c.2 && c.2 ≤ 90

def geomInRange : Geom → Bool
  | .point x y => coordInRange (x, y)
  | .line pts => pts.all coordInRange
  | .poly rings => rings.all (fun r => r.all coordInRange)

-- ----------------------------------------------------------------
-- Concrete fixtures used by counterexamples and witnesses
-- ----------------------------------------------------------------

def fA : Feature := ⟨Geom.point 1 2, [("ID", "a")]⟩

def fB : Feature := ⟨Geom.point 3 4, [("ID", "b")]⟩

/-- Environment for one layer: offset 0 returns one feature, offset 2000
raises, offset 4000 would have returned another feature. -/
def env1 : Nat → PageResponse := fun off =>
  if off = 0 then .page [fA]
  else if off = 2000 then .err
  else .page [fB]

/-- Environment in which every request returns an empty features array. -/
def envEmpty : Nat → PageResponse := fun _ => .page []

/-- Per-state environment in which every layer is empty. -/
def envE : String → Nat → PageResponse := fun _ => envEmpty

/-- A transform that always succeeds and leaves the geometry unchanged. -/
def trId : Geom → Option Geom := fun g => some g

/-- A transform that raises on every geometry. -/
def trDrop : Geom → Option Geom := fun _ => none

/-- A transform that raises exactly on fB's geometry and is the identity
elsewhere. -/
def trSel : Geom → Option Geom := fun g => if g = Geom.point 3 4 then none else some g

/-- A transform that succeeds but produces an out-of-range longitude, the way
pyproj with its default errcheck False returns out-of-range or non-finite
coordinates instead of raising for out-of-domain input. -/
def trOut : Geom → Option Geom := fun _ => some (Geom.point 200 10)

/-- A transform whose outputs are always in valid WGS84 range. -/
def trZero : Geom → Option Geom := fun _ => some (Geom.point 0 0)

/-- Environment for one layer: offset 0 returns one feature, every later
offset returns an empty features array. -/
def env4 : Nat → PageResponse := fun off => if off = 0 then .page [fA] else .page []

/-- A fallback store holding a dataset for the WV layer only. -/
def fbWV : String → Option (List Feature) := fun s => if s = "WV" then some [fA] else none

/-- An empty fallback store. -/
def fbNone : String → Option (List Feature) := fun _ => none

/-- A write environment in which every file write succeeds. -/
def wrAll : String → Bool := fun _ => true

-- ----------------------------------------------------------------
-- Structural lemmas about the pagination loop
-- ----------------------------------------------------------------

/-- The offsets requested by one run of the loop are consecutive multiples of
page_size starting at the initial offset, and the accumulated features are
the initial accumulator followed by the features of every requested page in
request order. -/
theorem fetchPages_requests_features (env : Nat → PageResponse) :
    ∀ fuel off acc,
      (fetchPages env fuel off acc).requests
        = List.range' off (fetchPages env fuel off acc).requests.length page_size ∧
      (fetchPages env fuel off acc).features
        = acc ++ ((fetchPages env fuel off acc).requests).flatMap (pageFeats env) := by
  intro fuel
  induction fuel with
  | zero => intro off acc; simp [fetchPages]
  | succ n ih =>
    intro off acc
    rcases h : env off with _ | _ | fs
    · simp [fetchPages, h, pageFeats]
    · simp [fetchPages, h, pageFeats]
    · rcases fs with _ | ⟨f, fs⟩
      · simp [fetchPages, h, pageFeats]
      · have := ih (off + page_size) (acc ++ (f :: fs))
        constructor
        · simp only [fetchPages, h]
          rw [List.length_cons, List.range'_succ]
          exact congrArg (off :: ·) this.1
        · simp only [fetchPages, h, List.flatMap_cons]
          rw [this.2, pageFeats, h]
          simp

/-- When the loop stops because a response had an empty or missing features
array, the requests are exactly offsets off, off+p, ..., off+n*p and the
terminal response is the featureless one. -/
theorem fetchPages_stop_endOfData (env : Nat → PageResponse) :
    ∀ fuel off acc,
      (fetchPages env fuel off acc).stop = StopReason.endOfData →
      ∃ n, (fetchPages env fuel off acc).requests = List.range' off (n + 1) page_size ∧
        (env (off + n * page_size) = PageResponse.noFeaturesKey ∨
         env (off + n * page_size) = PageResponse.page []) := by
  intro fuel
  induction fuel with
  | zero => intro off acc h; simp [fetchPages] at h
  | succ m ih =>
    intro off acc h
    rcases he : env off with _ | _ | fs
    · simp [fetchPages, he] at h
    · exact ⟨0, by simp [fetchPages, he], Or.inl (by simpa using he)⟩
    · rcases fs with _ | ⟨f, fs⟩
      · exact ⟨0, by simp [fetchPages, he], Or.inr (by simpa using he)⟩
      · simp only [fetchPages, he] at h ⊢
        obtain ⟨n, hreq, hterm⟩ := ih (off + page_size) (acc ++ (f :: fs)) h
        refine ⟨n + 1, ?_, ?_⟩
        · rw [List.range'_succ, ← hreq]
        · have : off + page_size + n * page_size = off + (n + 1) * page_size := by ring
          rwa [this] at hterm

/-- When the loop stops because a request raised, the requests are exactly
offsets off, off+p, ..., off+n*p and the terminal response is the error. -/
theorem fetchPages_stop_error (env : Nat → PageResponse) :
    ∀ fuel off acc,
      (fetchPages env fuel off acc).stop = StopReason.error →
      ∃ n, (fetchPages env fuel off acc).requests = List.range' off (n + 1) page_size ∧
        env (off + n * page_size) = PageResponse.err := by
  intro fuel
  induction fuel with
  | zero => intro off acc h; simp [fetchPages] at h
  | succ m ih =>
    intro off acc h
    rcases he : env off with _ | _ | fs
    · exact ⟨0, by simp [fetchPages, he], by simpa using he⟩
    · simp [fetchPages, he] at h
    · rcases fs with _ | ⟨f, fs⟩
      · simp [fetchPages, he] at h
      · simp only [fetchPages, he] at h ⊢
        obtain ⟨n, hreq, hterm⟩ := ih (off + page_size) (acc ++ (f :: fs)) h
        refine ⟨n + 1, ?_, ?_⟩
        · rw [List.range'_succ, ← hreq]
        · have : off + page_size + n * page_size = off + (n + 1) * page_size := by ring
          rwa [this] at hterm

/-- reproject_geojson distributes over append. -/
theorem reproject_geojson_append (tr : Geom → Option Geom) :
    ∀ l₁ l₂ : List Feature,
      reproject_geojson tr (l₁ ++ l₂) = reproject_geojson tr l₁ ++ reproject_geojson tr l₂ := by
  intro l₁ l₂
  induction l₁ with
  | nil => simp [reproject_geojson]
  | cons f fs ih =>
    rcases h : tr f.geom with _ | g <;>
      simp [reproject_geojson, h, ih]

/-- fetch_features leaves the fetch trace untouched in every branch. -/
theorem fetch_features_trace (env : Nat → PageResponse) (tr : Geom → Option Geom)
    (wr : Bool) (fuel : Nat) :
    (fetch_features env tr wr fuel).trace = fetchPages env fuel 0 [] := by
  simp only [fetch_features]
  split
  · rfl
  · split <;> rfl

/-- With no raw features accumulated, fetch_features writes nothing and
returns 0 (source lines 100-102). -/
theorem fetch_features_of_empty (env : Nat → PageResponse) (tr : Geom → Option Geom)
    (wr : Bool) (fuel : Nat) (h : (fetchPages env fuel 0 []).features = []) :
    fetch_features env tr wr fuel = ⟨none, 0, fetchPages env fuel 0 []⟩ := by
  simp [fetch_features, h]

/-- With at least one raw feature accumulated and a succeeding write,
fetch_features reprojects, writes the FeatureCollection document and returns
the reprojected count (source lines 104-115). -/
theorem fetch_features_of_nonempty (env : Nat → PageResponse) (tr : Geom → Option Geom)
    (fuel : Nat) (h : (fetchPages env fuel 0 []).features ≠ []) :
    fetch_features env tr true fuel
      = ⟨some (geojsonDoc (reproject_geojson tr (fetchPages env fuel 0 []).features)),
         (reproject_geojson tr (fetchPages env fuel 0 []).features).length,
         fetchPages env fuel 0 []⟩ := by
  simp [fetch_features, h]

/-- When the write raises, fetch_features persists no document and returns 0
(source lines 112-114). -/
theorem fetch_features_of_write_failed (env : Nat → PageResponse)
    (tr : Geom → Option Geom) (fuel : Nat) :
    fetch_features env tr false fuel = ⟨none, 0, fetchPages env fuel 0 []⟩ := by
  simp only [fetch_features]
  split <;> rfl

/-- Any document recorded as written stems from a non-empty raw harvest and a
succeeding write, and is the reprojected FeatureCollection document. -/
theorem fetch_features_written (env : Nat → PageResponse) (tr : Geom → Option Geom)
    (wr : Bool) (fuel : Nat) (doc : List (String × JVal))
    (h : (fetch_features env tr wr fuel).written = some doc) :
    (fetchPages env fuel 0 []).features ≠ [] ∧ wr = true ∧
    doc = geojsonDoc (reproject_geojson tr (fetchPages env fuel 0 []).features) := by
  by_cases he : (fetchPages env fuel 0 []).features = []
  · rw [fetch_features_of_empty env tr wr fuel he] at h
    simp at h
  · cases wr with
    | false =>
      rw [fetch_features_of_write_failed env tr fuel] at h
      simp at h
    | true =>
      rw [fetch_features_of_nonempty env tr fuel he] at h
      exact ⟨he, rfl, (Option.some.inj h).symm⟩

/-- The outcome list of a run is the per-state fetch outcomes, in catalog
order, in both branches of main. -/
theorem mainRun_outcomes (env : String → Nat → PageResponse) (tr : Geom → Option Geom)
    (fuel : Nat) (wr : String → Bool) (fb : String → Option (List Feature)) :
    (mainRun env tr fuel wr fb).outcomes
      = STATES.map (fun st => (st.1, fetch_features (env st.1) tr (wr st.1) fuel)) := by
  simp only [mainRun]
  split <;> rfl

/-- C10: the tile-build step includes a persisted layer file as input exactly
when its size exceeds 500 bytes; a file of 500 bytes or smaller is excluded,
and when no file exceeds that size the build is skipped and reports
failure. -/
theorem claimC10_theorem (files : List (String × Nat)) (tcOk : Bool) :
    (∀ f, f ∈ tilingInputs files ↔ f ∈ files ∧ 500 < f.2) ∧
    (tilingInputs files = [] → build_tiles files tcOk = false) := by
  constructor
  · intro f
    simp [tilingInputs, List.mem_filter]
  · intro h
    simp [build_tiles, h]

/-- Witness for C10 at a directory holding one 400-byte file: the build is
skipped and reports failure. -/
theorem claimC10_witness : build_tiles [("WV", 400)] true = false :=
  (claimC10_theorem [("WV", 400)] true).2 (by decide)

/-- C6: a feature whose transform raises is dropped entirely — removing it
from the input changes nothing about the output, so it appears in no form and
every other feature is unaffected. -/
theorem claimC6_theorem (tr : Geom → Option Geom) (pre post : List Feature)
    (f : Feature) (h : tr f.geom = none) :
    reproject_geojson tr (pre ++ f :: post) = reproject_geojson tr (pre ++ post) := by
  rw [reproject_geojson_append, reproject_geojson_append]
  congr 1
  simp [reproject_geojson, h]

/-- Witness for C6: fB's transform raises, and the output over [fA, fB, fA]
equals the output over [fA, fA]. -/
theorem claimC6_witness :
    trSel fB.geom = none ∧
    reproject_geojson trSel ([fA] ++ fB :: [fA]) = reproject_geojson trSel ([fA] ++ [fA]) :=
  ⟨by decide, claimC6_theorem trSel [fA] [fA] fB (by decide)⟩

/-- C9: reprojection only rewrites the geometry of surviving features: the
non-geometry members survive verbatim and in input order (a subsequence of
the input), the output is no longer than the input, and every output feature
stems from an input feature with identical non-geometry members whose
transform succeeded. -/
theorem claimC9_theorem (tr : Geom → Option Geom) (fs : List Feature) :
    List.Sublist ((reproject_geojson tr fs).map Feature.other) (fs.map Feature.other) ∧
    (reproject_geojson tr fs).length ≤ fs.length ∧
    ∀ g ∈ reproject_geojson tr fs, ∃ f ∈ fs, f.other = g.other ∧ tr f.geom = some g.geom := by
  induction fs with
  | nil => simp [reproject_geojson]
  | cons f fs ih =>
    rcases h : tr f.geom with _ | g₀
    · refine ⟨?_, ?_, ?_⟩
      · simp only [reproject_geojson, h, List.map_cons]
        exact ih.1.cons _
      · simp only [reproject_geojson, h, List.length_cons]
        exact Nat.le_succ_of_le ih.2.1
      · intro g hg
        simp only [reproject_geojson, h] at hg
        obtain ⟨f', hf', he⟩ := ih.2.2 g hg
        exact ⟨f', List.mem_cons_of_mem _ hf', he⟩
    · refine ⟨?_, ?_, ?_⟩
      · simp only [reproject_geojson, h, List.map_cons]
        exact ih.1.cons₂ _
      · simp only [reproject_geojson, h, List.length_cons]
        exact Nat.succ_le_succ ih.2.1
      · intro g hg
        simp only [reproject_geojson, h, List.mem_cons] at hg
        rcases hg with rfl | hg
        · exact ⟨f, List.mem_cons_self _ _, rfl, h⟩
        · obtain ⟨f', hf', he⟩ := ih.2.2 g hg
          exact ⟨f', List.mem_cons_of_mem _ hf', he⟩

/-- Witness for C9: the surviving output feature fA stems from an input
feature with the same non-geometry members and a successful transform. -/
theorem claimC9_witness :
    ∃ f ∈ [fA, fB], f.other = fA.other ∧ trSel f.geom = some fA.geom :=
  (claimC9_theorem trSel [fA, fB]).2.2 fA (by decide)

/-- C1 counterexample: with a first page of data, an error at offset 2000 and
more data waiting at offset 4000, the failing request at offset 2000 is
attempted exactly once — no retry — and the error ends the whole loop: offset
4000 is never requested even though it held features, so the failure does
abort the rest of the layer's fetch plan. -/
theorem claimC1_counterexample :
    (fetchPages env1 10 0 []).requests = [0, 2000] ∧
    (fetchPages env1 10 0 []).requests.count 2000 = 1 ∧
    (fetchPages env1 10 0 []).stop = StopReason.error ∧
    env1 4000 = PageResponse.page [fB] ∧
    (fetchPages env1 10 0 []).features = [fA] := by decide

/-- C1 as amended: a failing page request is attempted exactly once (each
offset appears at most once in the request trace, so there is no retry and no
backoff), and the failure ends the layer's pagination immediately: the
requested offsets are exactly 0, p, ..., n*p with the error at n*p, no later
offset is requested, and only the features of the earlier, successful pages
are kept. -/
theorem claimC1_theorem (env : Nat → PageResponse) (fuel : Nat)
    (h : (fetchPages env fuel 0 []).stop = StopReason.error) :
    (fetchPages env fuel 0 []).requests.Nodup ∧
    ∃ n, (fetchPages env fuel 0 []).requests = List.range' 0 (n + 1) page_size ∧
      env (n * page_size) = PageResponse.err ∧
      (fetchPages env fuel 0 []).features = (List.range' 0 n page_size).flatMap (pageFeats env) := by
  obtain ⟨n, hreq, herr⟩ := fetchPages_stop_error env fuel 0 [] h
  have hrf := fetchPages_requests_features env fuel 0 []
  have herr0 : env (n * page_size) = PageResponse.err := by simpa using herr
  constructor
  · rw [hreq]
    exact List.nodup_range' 0 (n + 1) page_size (by decide)
  · refine ⟨n, hreq, herr0, ?_⟩
    rw [hrf.2, hreq, List.range'_concat]
    have hz : pageFeats env (page_size * n) = [] := by
      have e : page_size * n = n * page_size := by ring
      rw [e]
      simp [pageFeats, herr0]
    simp [List.flatMap_append, hz]

/-- Witness for C1 as amended, at the concrete failing environment env1. -/
theorem claimC1_witness :
    (fetchPages env1 10 0 []).requests.Nodup ∧
    ∃ n, (fetchPages env1 10 0 []).requests = List.range' 0 (n + 1) page_size ∧
      env1 (n * page_size) = PageResponse.err ∧
      (fetchPages env1 10 0 []).features = (List.range' 0 n page_size).flatMap (pageFeats env1) :=
  claimC1_theorem env1 10 (by decide)

/-- C5 counterexample: the loop stopped requesting further pages after offset
2000 even though the response there was a raised error, not an empty or
absent features array — offset 4000, which still held data, was never
requested. So "stops exactly when a response's features array is empty or
absent" is false. -/
theorem claimC5_counterexample :
    (fetchPages env1 10 0 []).requests = [0, 2000] ∧
    env1 2000 = PageResponse.err ∧
    PageResponse.err ≠ PageResponse.noFeaturesKey ∧
    PageResponse.err ≠ PageResponse.page [] ∧
    env1 4000 = PageResponse.page [fB] := by decide

/-- C5 as amended: the fetcher requests successive offsets 0, p, 2p, ... for
a fixed page size p; it stops either at a failed request or at the first
response with an empty or absent features array (end-of-data), and the
accumulated result is exactly the concatenation, in order, of the features of
every page fetched before the terminal condition. -/
theorem claimC5_theorem (env : Nat → PageResponse) (fuel : Nat) :
    (fetchPages env fuel 0 []).requests
      = List.range' 0 (fetchPages env fuel 0 []).requests.length page_size ∧
    (fetchPages env fuel 0 []).features
      = ((fetchPages env fuel 0 []).requests).flatMap (pageFeats env) ∧
    ((fetchPages env fuel 0 []).stop = StopReason.endOfData →
      ∃ n, (fetchPages env fuel 0 []).requests = List.range' 0 (n + 1) page_size ∧
        (env (n * page_size) = PageResponse.noFeaturesKey ∨
         env (n * page_size) = PageResponse.page [])) := by
  have hrf := fetchPages_requests_features env fuel 0 []
  refine ⟨hrf.1, by simpa using hrf.2, ?_⟩
  intro h
  obtain ⟨n, hreq, ht⟩ := fetchPages_stop_endOfData env fuel 0 [] h
  exact ⟨n, hreq, by simpa using ht⟩

/-- Witness for C5 as amended, at an environment whose first page already
signals end-of-data. -/
theorem claimC5_witness :
    ∃ n, (fetchPages envEmpty 3 0 []).requests = List.range' 0 (n + 1) page_size ∧
      (envEmpty (n * page_size) = PageResponse.noFeaturesKey ∨
       envEmpty (n * page_size) = PageResponse.page []) :=
  (claimC5_theorem envEmpty 3).2.2 (by decide)

/-- C4 counterexample: the layer fetched one raw feature, every feature was
dropped during reprojection, and with a succeeding write the script still
persisted a file holding an empty FeatureCollection — an output file was
written although the assembled feature set is empty, because the emptiness
check (source line 100) runs on the raw features, before reprojection. -/
theorem claimC4_counterexample :
    (fetchPages env4 5 0 []).features = [fA] ∧
    reproject_geojson trDrop [fA] = [] ∧
    (fetch_features env4 trDrop true 5).written = some (geojsonDoc []) ∧
    (fetch_features env4 trDrop true 5).count = 0 := by decide

/-- C4 as amended: when zero raw features were fetched, no output file is
written and the empty outcome is signalled by returning 0; and any output
file that is written required a non-empty raw feature set and holds the
reprojected features — which can be the empty collection when reprojection
dropped every raw feature, since the emptiness check precedes
reprojection. -/
theorem claimC4_theorem (env : Nat → PageResponse) (tr : Geom → Option Geom)
    (wr : Bool) (fuel : Nat) :
    ((fetchPages env fuel 0 []).features = [] →
      (fetch_features env tr wr fuel).written = none ∧
      (fetch_features env tr wr fuel).count = 0) ∧
    (∀ doc, (fetch_features env tr wr fuel).written = some doc →
      (fetchPages env fuel 0 []).features ≠ [] ∧
      doc = geojsonDoc (reproject_geojson tr (fetchPages env fuel 0 []).features)) := by
  constructor
  · intro h
    rw [fetch_features_of_empty env tr wr fuel h]
    exact ⟨rfl, rfl⟩
  · intro doc h
    obtain ⟨hne, -, hdoc⟩ := fetch_features_written env tr wr fuel doc h
    exact ⟨hne, hdoc⟩

/-- Witness for C4 as amended: an empty harvest writes nothing, and the
persisted empty-collection document of the all-dropped run indeed stems from
a non-empty raw feature set. -/
theorem claimC4_witness :
    ((fetch_features envEmpty trId true 3).written = none ∧
     (fetch_features envEmpty trId true 3).count = 0) ∧
    ((fetchPages env4 5 0 []).features ≠ [] ∧
     geojsonDoc []
       = geojsonDoc (reproject_geojson trDrop (fetchPages env4 5 0 []).features)) :=
  ⟨(claimC4_theorem envEmpty trId true 3).1 (by decide),
   (claimC4_theorem env4 trDrop true 5).2 (geojsonDoc []) (by decide)⟩

/-- C7 counterexample: the normalizer performs no post-transform range check,
so when the transform returns an out-of-range coordinate without raising —
as pyproj does with its default errcheck False, returning out-of-range or
infinite values for out-of-domain input — the feature is kept in the output
with longitude 200, outside [-180, 180]. -/
theorem claimC7_counterexample :
    reproject_geojson trOut [fA] = [⟨Geom.point 200 10, [("ID", "a")]⟩] ∧
    geomInRange (Geom.point 200 10) = false := by decide

/-- C7 as amended: features are dropped only when the transform raises; the
code performs no range validation, so every retained coordinate lies within
[-180, 180] × [-90, 90] exactly insofar as the transform only ever returns
in-range geometries. Under that assumption on the transform the invariant
holds for every retained feature. -/
theorem claimC7_theorem (tr : Geom → Option Geom) (fs : List Feature)
    (hr : ∀ g g', tr g = some g' → geomInRange g' = true) :
    ∀ f ∈ reproject_geojson tr fs, geomInRange f.geom = true := by
  induction fs with
  | nil => intro f hf; simp [reproject_geojson] at hf
  | cons x xs ih =>
    intro f hf
    rcases h : tr x.geom with _ | g
    · simp only [reproject_geojson, h] at hf
      exact ih f hf
    · simp only [reproject_geojson, h, List.mem_cons] at hf
      rcases hf with rfl | hf
      · exact hr _ _ h
      · exact ih f hf

/-- Witness for C7 as amended, with an everywhere-in-range transform. -/
theorem claimC7_witness :
    geomInRange (Feature.geom ⟨Geom.point 0 0, [("ID", "a")]⟩) = true :=
  claimC7_theorem trZero [fA]
    (fun g g' h => by
      simp only [trZero] at h
      injection h with h₂
      rw [← h₂]
      decide)
    ⟨Geom.point 0 0, [("ID", "a")]⟩ (by decide)

/-- C8 counterexample: a successful layer run persists a document whose
members are exactly "type" and "features" — there is no layer name, no
resolved source CRS, no fetch timestamp and no completeness flag in the
persisted collection (the layer name only appears in the file name). -/
theorem claimC8_counterexample :
    (fetch_features env4 trId true 5).written = some (geojsonDoc [fA]) ∧
    (geojsonDoc [fA]).map Prod.fst = ["type", "features"] := by decide

/-- C8 as amended: every persisted per-layer document is a bare
FeatureCollection carrying exactly the members "type" and "features"; no
provenance metadata (layer name, source CRS, timestamp, completeness flag) is
recorded in it. -/
theorem claimC8_theorem (env : Nat → PageResponse) (tr : Geom → Option Geom)
    (wr : Bool) (fuel : Nat) (doc : List (String × JVal))
    (h : (fetch_features env tr wr fuel).written = some doc) :
    doc.map Prod.fst = ["type", "features"] := by
  obtain ⟨-, -, rfl⟩ := fetch_features_written env tr wr fuel doc h
  rfl

/-- Witness for C8 at a successful concrete layer run. -/
theorem claimC8_witness : (geojsonDoc [fA]).map Prod.fst = ["type", "features"] :=
  claimC8_theorem env4 trId true 5 (geojsonDoc [fA]) (by decide)

/-- C2 counterexample: every layer's harvest is empty and the fallback store
holds a dataset for the WV layer, yet WV's outcome is no file written and
count 0, and the run still skips the build — the fallback is not substituted
for the layer's output. -/
theorem claimC2_counterexample :
    fbWV "WV" = some [fA] ∧
    (mainRun envE trId 3 wrAll fbWV).outcomes.lookup "WV"
      = some ⟨none, 0, ⟨[0], [], StopReason.endOfData⟩⟩ ∧
    (mainRun envE trId 3 wrAll fbWV).buildAttempted = false := by decide

/-- C2 as amended: a layer whose live harvest yields zero features simply
contributes nothing downstream — no file is written and its count is 0 — and
no fallback dataset is ever consulted or substituted: the run's result is
identical for any two fallback stores. -/
theorem claimC2_theorem (env : String → Nat → PageResponse) (tr : Geom → Option Geom)
    (fuel : Nat) (wr : String → Bool) (fb fb' : String → Option (List Feature)) :
    mainRun env tr fuel wr fb = mainRun env tr fuel wr fb' ∧
    ∀ s o, (s, o) ∈ (mainRun env tr fuel wr fb).outcomes →
      o.trace.features = [] → o.written = none ∧ o.count = 0 := by
  refine ⟨rfl, ?_⟩
  intro s o hmem hempty
  rw [mainRun_outcomes] at hmem
  obtain ⟨st, _, heq⟩ := List.mem_map.1 hmem
  have ho : o = fetch_features (env st.1) tr (wr st.1) fuel := (congrArg Prod.snd heq).symm
  subst ho
  rw [fetch_features_trace] at hempty
  rw [fetch_features_of_empty (env st.1) tr (wr st.1) fuel hempty]
  exact ⟨rfl, rfl⟩

/-- Witness for C2 as amended, at the all-empty environment. -/
theorem claimC2_witness :
    (⟨none, 0, ⟨[0], [], StopReason.endOfData⟩⟩ : FetchOutcome).written = none ∧
    (⟨none, 0, ⟨[0], [], StopReason.endOfData⟩⟩ : FetchOutcome).count = 0 :=
  (claimC2_theorem envE trId 3 wrAll fbWV fbNone).2 "WV"
    ⟨none, 0, ⟨[0], [], StopReason.endOfData⟩⟩ (by decide) (by decide)

/-- C3 counterexample: in a run in which no layer produced any usable output
(every count is 0), the process outcome is still 0 — success — so the run
does not report a non-zero outcome when no layer produced usable output. -/
theorem claimC3_counterexample :
    totalCount envE trId wrAll 3 = 0 ∧
    (mainRun envE trId 3 wrAll fbNone).exitCode = 0 ∧
    (mainRun envE trId 3 wrAll fbNone).buildAttempted = false := by decide

/-- C3 as amended: the process always exits with status 0; failure is only
signalled by withholding the handoff to tiling, which happens exactly when
the total fetched feature count is zero, i.e. the run proceeds to the tile
build if and only if at least one layer produced usable output. -/
theorem claimC3_theorem (env : String → Nat → PageResponse) (tr : Geom → Option Geom)
    (fuel : Nat) (wr : String → Bool) (fb : String → Option (List Feature)) :
    (mainRun env tr fuel wr fb).exitCode = 0 ∧
    ((mainRun env tr fuel wr fb).buildAttempted ↔ totalCount env tr wr fuel ≠ 0) := by
  have hts : ((STATES.map (fun st => (st.1, fetch_features (env st.1) tr (wr st.1) fuel))).map
        (fun o => o.2.count)).sum = totalCount env tr wr fuel := by
    rw [totalCount, List.map_map]
    rfl
  constructor
  · simp only [mainRun]
    split <;> rfl
  · simp only [mainRun, hts]
    by_cases h : totalCount env tr wr fuel = 0
    · simp [h]
    · simp [h]

/-- Witness for C3 as amended, at the all-empty environment. -/
theorem claimC3_witness :
    (mainRun envE trId 3 wrAll fbNone).exitCode = 0 ∧
    ((mainRun envE trId 3 wrAll fbNone).buildAttempted ↔ totalCount envE trId wrAll 3 ≠ 0) :=
  claimC3_theorem envE trId 3 wrAll fbNone
